import Mathlib

/-!
Verification of the job-orchestration core of the video-generation backend
(`backend/main.py`).  The Python code is shallowly embedded: JSON job
records become `JobDict` (each field an `Option JVal`, `none` meaning the
key is absent), the Redis-or-memory job store becomes `StoreState` with an
explicit per-call failure flag for the primary store, HTTP endpoints become
`Except`-returning functions, and the orchestration
(`video_generation_process` with its HuggingFace and mock fallbacks) becomes
a function from environment outcomes to the list of store writes it
performs.
-/

set_option maxHeartbeats 1000000

/-- A JSON value stored in a job record: a string or JSON null. -/
inductive JVal where
  | s : String → JVal
  | null : JVal
deriving DecidableEq, Repr

/-- A job record: a Python dict with a known set of possible keys.
`none` means the key is absent from the dict; `some JVal.null` means the
key is present with value `None`. -/
structure JobDict where
  status : Option JVal := none
  message : Option JVal := none
  video_url : Option JVal := none
  prompt : Option JVal := none
  video_path : Option JVal := none
  user_phone : Option JVal := none
deriving DecidableEq, Repr

/-- One field of Python's `dict.update`: the update's value wins when the
update dict carries the key, otherwise the current value stays. -/
def optUpd (u c : Option JVal) : Option JVal :=
  match u with
  | some v => some v
  | none => c

/-- Python `current_data.update(updates)` over the known keys. -/
def dictUpdate (cur upd : JobDict) : JobDict :=
  { status := optUpd upd.status cur.status
    message := optUpd upd.message cur.message
    video_url := optUpd upd.video_url cur.video_url
    prompt := optUpd upd.prompt cur.prompt
    video_path := optUpd upd.video_path cur.video_path
    user_phone := optUpd upd.user_phone cur.user_phone }

/-- Reading a string-valued key with Python `dict.get`: absent keys and
JSON nulls both read as "no value". -/
def jGetStr : Option JVal → Option String
  | some (JVal.s v) => some v
  | some JVal.null => none
  | none => none

/-- The characters Python's `str.strip()` removes (code points for which
`str.isspace()` holds). -/
def isPyWs (c : Char) : Bool :=
  [9, 10, 11, 12, 13, 28, 29, 30, 31, 32, 133, 160, 0x1680,
   0x2000, 0x2001, 0x2002, 0x2003, 0x2004, 0x2005, 0x2006, 0x2007,
   0x2008, 0x2009, 0x200a, 0x2028, 0x2029, 0x202f, 0x205f, 0x3000].contains c.toNat

/-- Python `s.strip()`: drop whitespace from both ends. -/
def pyStrip (s : String) : String :=
  String.mk (((s.data.dropWhile isPyWs).reverse.dropWhile isPyWs).reverse)

/-- The job store: `redisAvail` records whether the Redis client survived the
startup ping (`redis_client is not None`), `primary` is the Redis keyspace
(keys `"job:" ++ job_id`, JSON serialisation abstracted away), `memory` is
the in-process fallback dict `VIDEO_GENERATION_STATUS`. -/
structure StoreState where
  redisAvail : Bool
  primary : String → Option JobDict
  memory : String → Option JobDict

/-- Point update of a string-keyed map. -/
def mapSet (m : String → Option JobDict) (k : String) (v : JobDict) :
    String → Option JobDict :=
  fun x => if x = k then some v else m x

/-- `store_job_data`: try Redis (`setex`) when the client exists; a call-time
Redis failure (`pFail`) is caught and the write falls through to the
in-process dict, as does the no-client case.  Never raises. -/
def store_job_data (st : StoreState) (pFail : Bool) (jid : String)
    (d : JobDict) : StoreState :=
  if st.redisAvail && !pFail then
    { st with primary := mapSet st.primary ("job:" ++ jid) d }
  else
    { st with memory := mapSet st.memory jid d }

/-- `get_job_data`: try Redis when the client exists; on a call-time Redis
failure (`gFail`) or on a Redis miss (`if data:` falsy) fall through to the
in-process dict.  Never raises. -/
def get_job_data (st : StoreState) (gFail : Bool) (jid : String) :
    Option JobDict :=
  if st.redisAvail && !gFail then
    match st.primary ("job:" ++ jid) with
    | some d => some d
    | none => st.memory jid
  else
    st.memory jid

/-- `update_job_data` (the store's merge): read the current record, apply the
partial update dict onto it and write the result back; a no-op when no
current record is found. -/
def update_job_data (st : StoreState) (gFail pFail : Bool) (jid : String)
    (upd : JobDict) : StoreState :=
  match get_job_data st gFail jid with
  | some cur => store_job_data st pFail jid (dictUpdate cur upd)
  | none => st

deriving instance DecidableEq for Except

/-- HTTP error responses raised by the endpoints (`HTTPException`). -/
inductive HttpError where
  | badRequest (detail : String)
  | notFound (detail : String)
deriving DecidableEq, Repr

/-- Response model `Video_Job_Created_Response`. -/
structure CreatedResponse where
  job_id : String
  status : String
  message : String
deriving DecidableEq, Repr

/-- Response model `Status_Response` (field values as read from the record). -/
structure StatusResponse where
  job_id : String
  status : Option JVal
  message : Option JVal
  video_url : Option JVal
deriving DecidableEq, Repr

/-- The initial record written by `generate_video` before orchestration is
scheduled. -/
def initialJobData (prompt : String) : JobDict :=
  { status := some (JVal.s "processing")
    message := some (JVal.s "Video generation has started")
    video_url := some JVal.null
    prompt := some (JVal.s prompt) }

/-- `POST /api/generate-video`: reject a prompt that strips to empty with a
400, otherwise write the initial `processing` record and answer immediately
(the orchestration task is scheduled, not awaited; its effect is modelled
separately by `video_generation_process`).  Returns the response together
with the store state as left by this handler. -/
def generate_video (st : StoreState) (pFail : Bool) (jid prompt : String) :
    Except HttpError CreatedResponse × StoreState :=
  if pyStrip prompt = "" then
    (Except.error (HttpError.badRequest "Prompt is required"), st)
  else
    (Except.ok ⟨jid, "processing", "Video generation has started"⟩,
     store_job_data st pFail jid (initialJobData prompt))

/-- `GET /api/status/{job_id}`. -/
def get_status (st : StoreState) (gFail : Bool) (jid : String) :
    Except HttpError StatusResponse :=
  match get_job_data st gFail jid with
  | none => Except.error (HttpError.notFound "Job ID not found")
  | some d => Except.ok ⟨jid, d.status, d.message, d.video_url⟩

/-- `GET /api/download/{job_id}`: 404 when the job is unknown, 400 when the
job is not `completed`, 404 when the stored path is absent/falsy or the file
is gone (`fs` is the `os.path.exists` oracle), otherwise serve the file at
the stored path. -/
def download_video (st : StoreState) (gFail : Bool) (fs : String → Bool)
    (jid : String) : Except HttpError String :=
  match get_job_data st gFail jid with
  | none => Except.error (HttpError.notFound "Job ID not found")
  | some d =>
    if d.status ≠ some (JVal.s "completed") then
      Except.error (HttpError.badRequest "Video not ready for download")
    else
      match jGetStr d.video_path with
      | none => Except.error (HttpError.notFound "Video file not found")
      | some p =>
        if p = "" then Except.error (HttpError.notFound "Video file not found")
        else if fs p then Except.ok p
        else Except.error (HttpError.notFound "Video file not found")

/-- The condition under which `download_video` reports a missing artifact for
a completed record: `job_data.get("video_path")` yields no usable path
(absent key, JSON null or empty string — all falsy in Python) or
`os.path.exists` is false. -/
def pathMissing (d : JobDict) (fs : String → Bool) : Bool :=
  match jGetStr d.video_path with
  | none => true
  | some p => p = "" || !(fs p)

/-- One observed response of the Tier-1 (`Vidu`) creations endpoint during a
poll attempt: either the `requests.get`/`response.json()` call raised, or a
response arrived with an HTTP code, a `state` string (`data.get("state","")`)
and the `creations` list, each creation reduced to its optional `url`. -/
inductive PollResp where
  | exn
  | resp (code : Nat) (state : String) (creations : List (Option String))
deriving DecidableEq, Repr

/-- What one iteration of the polling loop decides to do. -/
inductive StepOutcome where
  | fetchAndReturn (url : String)
  | returnNone
  | continuePolling
deriving DecidableEq, Repr

/-- One iteration of the loop body of `poll_vidu_task`: a raised exception or
a non-200 code sleeps and continues; `state == "success"` downloads the first
creation's url when one is present and truthy and otherwise returns `None`;
`state == "failed"` returns `None`; any other state sleeps and continues. -/
def pollStep : PollResp → StepOutcome
  | PollResp.exn => StepOutcome.continuePolling
  | PollResp.resp code state creations =>
    if code ≠ 200 then StepOutcome.continuePolling
    else if state = "success" then
      match creations with
      | [] => StepOutcome.returnNone
      | u0 :: _ =>
        match u0 with
        | some url =>
          if url = "" then StepOutcome.returnNone
          else StepOutcome.fetchAndReturn url
        | none => StepOutcome.returnNone
    else if state = "failed" then StepOutcome.returnNone
    else StepOutcome.continuePolling

/-- The `for attempt in range(120)` loop of `poll_vidu_task` over the list of
responses it would observe; `fetch` is `download_vidu_video` (which catches
its own errors and returns the local path or `None`).  Falling off the end of
the list is the `Polling timeout` return of `None`. -/
def pollLoop (fetch : String → Option String) : List PollResp → Option String
  | [] => none
  | r :: rest =>
    match pollStep r with
    | StepOutcome.fetchAndReturn u => fetch u
    | StepOutcome.returnNone => none
    | StepOutcome.continuePolling => pollLoop fetch rest

/-- How many poll attempts the loop consumes on a given response list. -/
def pollAttempts : List PollResp → Nat
  | [] => 0
  | r :: rest =>
    match pollStep r with
    | StepOutcome.continuePolling => 1 + pollAttempts rest
    | _ => 1

/-- `poll_vidu_task`: run the loop over the 120 responses the environment
would deliver. -/
def poll_vidu_task (env : Nat → PollResp) (fetch : String → Option String) :
    Option String :=
  pollLoop fetch ((List.range 120).map env)

/-- Outcome of the Tier-1 (Vidu) phase of `video_generation_process`:
submission failed (missing key, non-200 response, missing `task_id` or a
raised request error), or submission succeeded and the polling phase returned
`None`, or polling returned a downloaded local path. -/
inductive ViduOutcome where
  | submitFail
  | pollNoResult
  | pollSuccess (path : String)
deriving DecidableEq, Repr

/-- Outcome of the Tier-2 (`use_huggingface_fallback`) attempt: an exception
before the `"Using HuggingFace model"` record update (e.g. the `login` call),
an exception or missing output file after it, or a produced and copied
video. -/
inductive HfOutcome where
  | earlyFail
  | lateFail
  | ok
deriving DecidableEq, Repr

/-- Outcome of the Tier-3 (`use_mock_video_fallback`) attempt: the
placeholder was copied, or it was missing / the copy raised. -/
inductive MockOutcome where
  | ok
  | fail
deriving DecidableEq, Repr

/-- The update dict of the first `update_job_data` call of
`video_generation_process`. -/
def processingUpdate : JobDict :=
  { message := some (JVal.s "🤖 Connecting to Vidu AI model...")
    status := some (JVal.s "processing") }

/-- The completion update written when Tier 1 produced a video. -/
def viduCompletedUpdate (jid path : String) : JobDict :=
  { status := some (JVal.s "completed")
    message := some (JVal.s "✅ Video generated successfully!")
    video_url := some (JVal.s
      ("https://bdcc07030d0e.ngrok-free.app/api/download/" ++ jid))
    video_path := some (JVal.s path) }

/-- The progress update written by `use_huggingface_fallback`. -/
def hfMessageUpdate : JobDict :=
  { message := some (JVal.s "🤖 Using HuggingFace model...") }

/-- The completion update written when Tier 2 produced a video. -/
def hfCompletedUpdate (jid : String) : JobDict :=
  { status := some (JVal.s "completed")
    message := some (JVal.s "✅ Video generated successfully!")
    video_url := some (JVal.s ("/api/download/" ++ jid))
    video_path := some (JVal.s ("./videos/" ++ jid ++ ".mp4")) }

/-- The completion update written when Tier 3 copied the placeholder. -/
def mockCompletedUpdate (jid : String) : JobDict :=
  { status := some (JVal.s "completed")
    message := some (JVal.s "✅ Demo video ready (using placeholder)")
    video_url := some (JVal.s ("/api/download/" ++ jid))
    video_path := some (JVal.s ("./videos/" ++ jid ++ ".mp4")) }

/-- The terminal failure update written when all three tiers failed. -/
def errorUpdate : JobDict :=
  { status := some (JVal.s "error")
    message := some (JVal.s "❌ All video generation methods failed")
    video_url := some JVal.null }

/-- The `update_job_data` calls `use_mock_video_fallback` performs. -/
def mockTrace (jid : String) : MockOutcome → List JobDict
  | MockOutcome.ok => [mockCompletedUpdate jid]
  | MockOutcome.fail => [errorUpdate]

/-- The `update_job_data` calls `use_huggingface_fallback` performs
(including those of the mock fallback it invokes on failure). -/
def hfTrace (jid : String) : HfOutcome → MockOutcome → List JobDict
  | HfOutcome.earlyFail, m => mockTrace jid m
  | HfOutcome.lateFail, m => hfMessageUpdate :: mockTrace jid m
  | HfOutcome.ok, _ => [hfMessageUpdate, hfCompletedUpdate jid]

/-- The ordered list of `update_job_data` calls `video_generation_process`
performs for the given tier outcomes: the initial `processing` update, then
either the Tier-1 completion update, or the fallback chain. -/
def video_generation_process (jid : String) :
    ViduOutcome → HfOutcome → MockOutcome → List JobDict
  | ViduOutcome.pollSuccess p, _, _ =>
    [processingUpdate, viduCompletedUpdate jid p]
  | ViduOutcome.submitFail, h, m => processingUpdate :: hfTrace jid h m
  | ViduOutcome.pollNoResult, h, m => processingUpdate :: hfTrace jid h m

/-- A store write performed on a job's record: the full-record `put` done at
creation, or one of orchestration's partial `merge` updates. -/
inductive WriteOp where
  | put (d : JobDict)
  | merge (d : JobDict)
deriving DecidableEq, Repr

/-- The `status` value a write sets, when it sets one. -/
def wStatus : WriteOp → Option JVal
  | WriteOp.put d => d.status
  | WriteOp.merge d => d.status

/-- All store writes the system performs for one job: the creation `put` of
`generate_video` followed by the orchestration's merges. -/
def systemWrites (prompt jid : String) (v : ViduOutcome) (h : HfOutcome)
    (m : MockOutcome) : List WriteOp :=
  WriteOp.put (initialJobData prompt) ::
    (video_generation_process jid v h m).map WriteOp.merge

/-- The status set by the `n`-th write of a write list (outer `none`: no such
write; inner `none`: the write does not touch `status`). -/
def statusAt (ws : List WriteOp) (n : Nat) : Option (Option JVal) :=
  (ws.get? n).map wStatus

/-- Apply a list of `update_job_data` calls to the store, consuming one pair
of call-time failure flags per call (missing flags mean the call does not hit
a store failure). -/
def applyWrites (jid : String) : List JobDict → List (Bool × Bool) →
    StoreState → StoreState
  | [], _, st => st
  | u :: rest, [], st =>
    applyWrites jid rest [] (update_job_data st false false jid u)
  | u :: rest, f :: ftl, st =>
    applyWrites jid rest ftl (update_job_data st f.1 f.2 jid u)

/-! ## Store helper lemmas -/

/-- Reading back a record just written with no call-time store failures. -/
theorem get_store_reliable (st : StoreState) (jid : String) (d : JobDict) :
    get_job_data (store_job_data st false jid d) false jid = some d := by
  cases hA : st.redisAvail <;>
    simp [store_job_data, get_job_data, mapSet, hA]

/-- Merging onto a readable record with no call-time store failures yields
the `dict.update` of the two. -/
theorem get_update_reliable (st : StoreState) (jid : String)
    (cur upd : JobDict) (h : get_job_data st false jid = some cur) :
    get_job_data (update_job_data st false false jid upd) false jid =
      some (dictUpdate cur upd) := by
  unfold update_job_data
  rw [h]
  exact get_store_reliable st jid (dictUpdate cur upd)

/-- Running a list of merges with no call-time store failures folds
`dictUpdate` over the readable record. -/
theorem get_applyWrites_reliable (jid : String) (us : List JobDict) :
    ∀ (st : StoreState) (cur : JobDict),
      get_job_data st false jid = some cur →
      get_job_data (applyWrites jid us [] st) false jid =
        some (us.foldl dictUpdate cur) := by
  induction us with
  | nil => intro st cur h; simpa [applyWrites] using h
  | cons u rest ih =>
    intro st cur h
    simpa [applyWrites, List.foldl_cons] using
      ih (update_job_data st false false jid u) (dictUpdate cur u)
        (get_update_reliable st jid cur u h)

/-! ## Prompt validation -/

/-- `str.strip()` of a string made of whitespace only is empty. -/
theorem pyStrip_all_ws (prompt : String)
    (h : ∀ c ∈ prompt.data, isPyWs c = true) : pyStrip prompt = "" := by
  unfold pyStrip
  have h1 : prompt.data.dropWhile isPyWs = [] :=
    List.dropWhile_eq_nil_iff.mpr h
  rw [h1]
  rfl

/-- C2.  For every prompt that is empty or consists only of whitespace, the
job-creation endpoint fails with the 400 `ValidationError` ("Prompt is
required") and the store state is returned unchanged: no job record is
written. -/
theorem claim_C2 (st : StoreState) (pFail : Bool) (jid prompt : String)
    (hws : ∀ c ∈ prompt.data, isPyWs c = true) :
    generate_video st pFail jid prompt =
      (Except.error (HttpError.badRequest "Prompt is required"), st) := by
  unfold generate_video
  rw [if_pos (pyStrip_all_ws prompt hws)]

/-- C2 witness: the whitespace prompt `" \t"` is rejected and the (empty)
store is untouched. -/
theorem claim_C2_witness :
    (∀ c ∈ (" \t" : String).data, isPyWs c = true) ∧
      generate_video ⟨false, fun _ => none, fun _ => none⟩ false "j1" " \t" =
        (Except.error (HttpError.badRequest "Prompt is required"),
         ⟨false, fun _ => none, fun _ => none⟩) :=
  ⟨by decide, claim_C2 ⟨false, fun _ => none, fun _ => none⟩ false "j1" " \t"
    (by decide)⟩

/-! ## Job creation and immediate status read -/

/-- Reading back a just-written record for a fresh job id succeeds for every
combination of call-time store failures except a primary write that landed
followed by a primary read failure (the write is then only in Redis and the
read only consults the in-process dict). -/
theorem get_store_fresh (st : StoreState) (pF gF : Bool) (jid : String)
    (d : JobDict) (hfresh : st.primary ("job:" ++ jid) = none)
    (hok : ¬(st.redisAvail = true ∧ pF = false ∧ gF = true)) :
    get_job_data (store_job_data st pF jid d) gF jid = some d := by
  cases hA : st.redisAvail <;> cases pF <;> cases gF <;>
    simp_all [store_job_data, get_job_data, mapSet]

/-- C3 counterexample.  The claim promises that for every valid prompt an
immediate status read returns the `processing` record.  Take Redis available,
an empty store, the valid prompt `"a cat"`, a creation whose primary write
succeeds, and a status read whose Redis call fails at call time: creation
returns the `processing` response, yet the immediate status read answers 404
`Job ID not found` instead of the `processing` record. -/
theorem claim_C3_counterexample :
    pyStrip "a cat" ≠ "" ∧
      (generate_video ⟨true, fun _ => none, fun _ => none⟩ false "j1"
          "a cat").1 =
        Except.ok ⟨"j1", "processing", "Video generation has started"⟩ ∧
      get_status
          (generate_video ⟨true, fun _ => none, fun _ => none⟩ false "j1"
            "a cat").2 true "j1" =
        Except.error (HttpError.notFound "Job ID not found") := by
  refine ⟨by decide, ?_, ?_⟩ <;> rfl

/-- C3 (amended).  For every non-whitespace prompt and fresh job id,
`generate_video` returns at once with the `processing` response and writes
the initial record with status `processing` before orchestration is
scheduled; an immediate status read returns that record with status
`processing` — provided the status read's primary-store call does not fail
right after a creation whose primary write succeeded (in that one case the
record sits only in Redis while the read falls through to the in-process
dict). -/
theorem claim_C3 (st : StoreState) (pF gF : Bool) (jid prompt : String)
    (hp : pyStrip prompt ≠ "")
    (hfresh : st.primary ("job:" ++ jid) = none)
    (hok : ¬(st.redisAvail = true ∧ pF = false ∧ gF = true)) :
    (generate_video st pF jid prompt).1 =
        Except.ok ⟨jid, "processing", "Video generation has started"⟩ ∧
      get_job_data (generate_video st pF jid prompt).2 gF jid =
        some (initialJobData prompt) ∧
      (initialJobData prompt).status = some (JVal.s "processing") ∧
      get_status (generate_video st pF jid prompt).2 gF jid =
        Except.ok ⟨jid, some (JVal.s "processing"),
          some (JVal.s "Video generation has started"), some JVal.null⟩ := by
  have hget : get_job_data (generate_video st pF jid prompt).2 gF jid =
      some (initialJobData prompt) := by
    simp only [generate_video, if_neg hp]
    exact get_store_fresh st pF gF jid (initialJobData prompt) hfresh hok
  refine ⟨by simp [generate_video, if_neg hp], hget, rfl, ?_⟩
  simp [get_status, hget, initialJobData]

/-- C3 witness: with Redis unavailable and an empty in-process dict, creating
a job for the prompt `"a cat"` and immediately reading its status yields the
`processing` record. -/
theorem claim_C3_witness :
    get_status
        (generate_video ⟨false, fun _ => none, fun _ => none⟩ false "j1"
          "a cat").2 false "j1" =
      Except.ok ⟨"j1", some (JVal.s "processing"),
        some (JVal.s "Video generation has started"), some JVal.null⟩ :=
  (claim_C3 ⟨false, fun _ => none, fun _ => none⟩ false false "j1" "a cat"
    (by decide) rfl (by simp)).2.2.2

/-! ## Store soft-fail behaviour -/

/-- C8.  Store operations never raise to their caller: under a call-time
primary-store failure, `put` falls through to writing the in-process dict
(leaving the primary untouched), `get` falls through to reading the
in-process dict, and `merge` therefore completes as a merge on (or no-op
over) the in-process dict — a primary-store outage never fails a job
operation.  This holds for every store state, in particular whenever the
primary store was selected at startup. -/
theorem claim_C8 (st : StoreState) (jid : String) (d upd : JobDict) :
    store_job_data st true jid d =
        { st with memory := mapSet st.memory jid d } ∧
      get_job_data st true jid = st.memory jid ∧
      update_job_data st true true jid upd =
        (match st.memory jid with
         | none => st
         | some cur =>
           { st with memory := mapSet st.memory jid (dictUpdate cur upd) }) := by
  refine ⟨by simp [store_job_data], by simp [get_job_data], ?_⟩
  unfold update_job_data
  have hg : get_job_data st true jid = st.memory jid := by simp [get_job_data]
  rw [hg]
  cases st.memory jid with
  | none => rfl
  | some cur => simp [store_job_data]

/-- C10.  When the primary store is selected at startup but holds no value
for the job's key at read time (fallback-written record, expired TTL, …),
`get_job_data` falls through to the in-process dict and returns whatever it
holds — the fallback read happens on any primary miss, not only on a primary
error. -/
theorem claim_C10 (st : StoreState) (jid : String)
    (hA : st.redisAvail = true)
    (hmiss : st.primary ("job:" ++ jid) = none) :
    get_job_data st false jid = st.memory jid := by
  simp [get_job_data, hA, hmiss]

/-- C10 witness: Redis selected, primary empty, in-process dict holding the
record — the read returns the in-process record. -/
theorem claim_C10_witness :
    get_job_data
        ⟨true, fun _ => none,
         fun x => if x = "j1" then some (initialJobData "p") else none⟩
        false "j1" =
      some (initialJobData "p") := by
  rw [claim_C10
    ⟨true, fun _ => none,
     fun x => if x = "j1" then some (initialJobData "p") else none⟩
    "j1" rfl rfl]
  simp

/-! ## Tier-1 polling -/

/-- C4 counterexample.  The claim says every response other than
`success`-with-artifact and `failed` — explicitly including a `success` state
with zero artifacts — maps to a pending outcome that continues polling.  On a
200 response with `state = "success"` and an empty `creations` list the loop
body instead returns `None` immediately (a terminal no-result outcome), and
likewise when the first creation lacks a `url`. -/
theorem claim_C4_counterexample :
    pollStep (PollResp.resp 200 "success" []) = StepOutcome.returnNone ∧
      pollStep (PollResp.resp 200 "success" []) ≠
        StepOutcome.continuePolling ∧
      pollStep (PollResp.resp 200 "success" [none]) = StepOutcome.returnNone ∧
      pollStep (PollResp.resp 200 "success" [none]) ≠
        StepOutcome.continuePolling := by
  refine ⟨rfl, by decide, rfl, by decide⟩

/-- C4 (amended).  The polling step maps a 200 response in state `success`
whose first artifact carries a non-empty URL to the success outcome (fetch
that URL); a 200 `success` response with zero artifacts, or whose first
artifact lacks a URL (absent or empty), to the immediate no-result outcome;
a 200 `failed` response to the no-result outcome; and every other response —
non-200 codes, raised request/parse errors, and any other state string — to
the pending outcome that continues polling. -/
theorem claim_C4 (url state : String) (cs : List (Option String))
    (code : Nat) (hurl : url ≠ "") (hstate : state ≠ "success")
    (hstate2 : state ≠ "failed") (hcode : code ≠ 200) :
    pollStep (PollResp.resp 200 "success" (some url :: cs)) =
        StepOutcome.fetchAndReturn url ∧
      pollStep (PollResp.resp 200 "success" []) = StepOutcome.returnNone ∧
      pollStep (PollResp.resp 200 "success" (none :: cs)) =
        StepOutcome.returnNone ∧
      pollStep (PollResp.resp 200 "success" (some "" :: cs)) =
        StepOutcome.returnNone ∧
      pollStep (PollResp.resp 200 "failed" cs) = StepOutcome.returnNone ∧
      pollStep (PollResp.resp 200 state cs) = StepOutcome.continuePolling ∧
      pollStep (PollResp.resp code state cs) = StepOutcome.continuePolling ∧
      pollStep PollResp.exn = StepOutcome.continuePolling := by
  refine ⟨by simp [pollStep, hurl], rfl, rfl, rfl, rfl, ?_, ?_, rfl⟩
  · simp [pollStep, hstate, hstate2]
  · simp [pollStep, hcode]

/-- C4 witness: a concrete instance of the amended mapping. -/
theorem claim_C4_witness :
    pollStep (PollResp.resp 200 "success" [some "http://v"]) =
        StepOutcome.fetchAndReturn "http://v" ∧
      pollStep (PollResp.resp 200 "failed" []) = StepOutcome.returnNone ∧
      pollStep (PollResp.resp 200 "created" []) =
        StepOutcome.continuePolling ∧
      pollStep (PollResp.resp 500 "created" []) =
        StepOutcome.continuePolling :=
  ⟨(claim_C4 "http://v" "created" [] 500 (by decide) (by decide) (by decide)
      (by decide)).1,
   (claim_C4 "http://v" "created" [] 500 (by decide) (by decide) (by decide)
      (by decide)).2.2.2.2.1,
   (claim_C4 "http://v" "created" [] 500 (by decide) (by decide) (by decide)
      (by decide)).2.2.2.2.2.1,
   (claim_C4 "http://v" "created" [] 500 (by decide) (by decide) (by decide)
      (by decide)).2.2.2.2.2.2.1⟩

/-- The loop never consumes more attempts than there are responses. -/
theorem pollAttempts_le_length (l : List PollResp) :
    pollAttempts l ≤ l.length := by
  induction l with
  | nil => simp [pollAttempts]
  | cons r rest ih =>
    cases h : pollStep r
    all_goals simp [pollAttempts, h]
    all_goals omega

/-- A run whose every observed response is non-terminal returns `None`. -/
theorem pollLoop_all_pending (fetch : String → Option String)
    (l : List PollResp) (h : ∀ r ∈ l, pollStep r = StepOutcome.continuePolling) :
    pollLoop fetch l = none := by
  induction l with
  | nil => rfl
  | cons r rest ih =>
    have hr := h r (List.mem_cons_self r rest)
    simp only [pollLoop, hr]
    exact ih fun x hx => h x (List.mem_cons_of_mem r hx)

/-- C5.  The polling loop performs at most 120 attempts; a `failed` remote
state returns the no-result outcome after that one attempt, consuming no
further attempts; a transient query failure (raised network/HTTP error) is
treated as pending, consuming exactly one attempt before the loop continues
unchanged; and a run in which every response is non-terminal exhausts the
budget and returns the no-result outcome (a value, not an exception). -/
theorem claim_C5 (env : Nat → PollResp) (fetch : String → Option String)
    (rest : List PollResp) (cs : List (Option String))
    (hpend : ∀ i, pollStep (env i) = StepOutcome.continuePolling) :
    pollAttempts ((List.range 120).map env) ≤ 120 ∧
      pollLoop fetch (PollResp.resp 200 "failed" cs :: rest) = none ∧
      pollAttempts (PollResp.resp 200 "failed" cs :: rest) = 1 ∧
      pollStep PollResp.exn = StepOutcome.continuePolling ∧
      pollLoop fetch (PollResp.exn :: rest) = pollLoop fetch rest ∧
      pollAttempts (PollResp.exn :: rest) = 1 + pollAttempts rest ∧
      poll_vidu_task env fetch = none := by
  refine ⟨?_, rfl, rfl, rfl, rfl, rfl, ?_⟩
  · simpa using pollAttempts_le_length ((List.range 120).map env)
  · exact pollLoop_all_pending fetch ((List.range 120).map env)
      fun r hr => by
        rcases List.mem_map.mp hr with ⟨i, _, hi⟩
        rw [← hi]; exact hpend i

/-- C5 witness: an environment that raises on every attempt exhausts the
budget and the run returns `None`. -/
theorem claim_C5_witness :
    poll_vidu_task (fun _ => PollResp.exn) (fun _ => none) = none :=
  (claim_C5 (fun _ => PollResp.exn) (fun _ => none) [] []
    (fun _ => rfl)).2.2.2.2.2.2

/-! ## Status monotonicity of the orchestration writes -/

/-- Every write that sets `status = "processing"` is one of the first two
writes (the creation `put` and orchestration's opening update). -/
theorem processing_write_early (prompt jid : String) (v : ViduOutcome)
    (h : HfOutcome) (m : MockOutcome) (j : Nat)
    (hj : statusAt (systemWrites prompt jid v h m) j =
      some (some (JVal.s "processing"))) : j ≤ 1 := by
  rcases j with _ | _ | _ | _ | j
  · omega
  · omega
  all_goals
    exfalso
    cases v <;> cases h <;> cases m <;>
      simp_all [systemWrites, video_generation_process, hfTrace, mockTrace,
        statusAt, wStatus, processingUpdate, viduCompletedUpdate,
        hfMessageUpdate, hfCompletedUpdate, mockCompletedUpdate, errorUpdate,
        initialJobData, List.get?]

/-- Every write that sets a terminal status comes after the first two
writes. -/
theorem terminal_write_late (prompt jid : String) (v : ViduOutcome)
    (h : HfOutcome) (m : MockOutcome) (i : Nat)
    (hterm : statusAt (systemWrites prompt jid v h m) i =
        some (some (JVal.s "completed")) ∨
      statusAt (systemWrites prompt jid v h m) i =
        some (some (JVal.s "error"))) : 2 ≤ i := by
  rcases i with _ | _ | i
  · exfalso
    simp_all [systemWrites, statusAt, wStatus, initialJobData, List.get?]
  · exfalso
    cases v <;>
      simp_all [systemWrites, video_generation_process, hfTrace, mockTrace,
        statusAt, wStatus, processingUpdate, List.get?]
  · omega

/-- C1.  Over the full sequence of store writes the system performs for one
job — the creation write and every update of the orchestration and its
fallbacks, for every combination of tier outcomes — once a write sets the
terminal status `completed` or `error`, no later write sets the status back
to `processing`. -/
theorem claim_C1 (prompt jid : String) (v : ViduOutcome) (h : HfOutcome)
    (m : MockOutcome) (i j : Nat) (hij : i < j)
    (hterm : statusAt (systemWrites prompt jid v h m) i =
        some (some (JVal.s "completed")) ∨
      statusAt (systemWrites prompt jid v h m) i =
        some (some (JVal.s "error"))) :
    statusAt (systemWrites prompt jid v h m) j ≠
      some (some (JVal.s "processing")) := by
  intro hj
  have h1 := processing_write_early prompt jid v h m j hj
  have h2 := terminal_write_late prompt jid v h m i hterm
  omega

/-- C1 witness: in a run where Tier 1 succeeds, the write after the terminal
`completed` write (there is none — index 3 is past the trace) never sets
`processing`. -/
theorem claim_C1_witness :
    statusAt
        (systemWrites "a cat" "j1" (ViduOutcome.pollSuccess "./v.mp4")
          HfOutcome.ok MockOutcome.ok) 2 =
      some (some (JVal.s "completed")) ∧
    statusAt
        (systemWrites "a cat" "j1" (ViduOutcome.pollSuccess "./v.mp4")
          HfOutcome.ok MockOutcome.ok) 3 ≠
      some (some (JVal.s "processing")) :=
  ⟨rfl,
   claim_C1 "a cat" "j1" (ViduOutcome.pollSuccess "./v.mp4") HfOutcome.ok
     MockOutcome.ok 2 3 (by omega) (Or.inl rfl)⟩

/-! ## All three tiers failing -/

/-- A record in status `error` is rejected by the download endpoint with the
not-ready 400. -/
theorem download_error_status (st : StoreState) (fs : String → Bool)
    (jid : String) (d : JobDict)
    (hget : get_job_data st false jid = some d)
    (hst : d.status = some (JVal.s "error")) :
    download_video st false fs jid =
      Except.error (HttpError.badRequest "Video not ready for download") := by
  unfold download_video
  rw [hget]
  simp [hst]

/-- When every tier fails, the orchestration trace ends with the terminal
`error` update. -/
theorem trace_ends_error (jid : String) (v : ViduOutcome) (h : HfOutcome)
    (hv : v = ViduOutcome.submitFail ∨ v = ViduOutcome.pollNoResult)
    (hh : h = HfOutcome.earlyFail ∨ h = HfOutcome.lateFail) :
    ∃ pre, video_generation_process jid v h MockOutcome.fail =
      pre ++ [errorUpdate] := by
  rcases hv with rfl | rfl <;> rcases hh with rfl | rfl
  · exact ⟨[processingUpdate], rfl⟩
  · exact ⟨[processingUpdate, hfMessageUpdate], rfl⟩
  · exact ⟨[processingUpdate], rfl⟩
  · exact ⟨[processingUpdate, hfMessageUpdate], rfl⟩

/-- Folding a merge trace that ends in the terminal `error` update leaves the
record in status `error`, with a null `video_url` and the explanatory
message. -/
theorem foldl_last_error (us : List JobDict) :
    ∀ d0 : JobDict,
      ((us ++ [errorUpdate]).foldl dictUpdate d0).status =
          some (JVal.s "error") ∧
        ((us ++ [errorUpdate]).foldl dictUpdate d0).video_url =
          some JVal.null ∧
        ((us ++ [errorUpdate]).foldl dictUpdate d0).message =
          some (JVal.s "❌ All video generation methods failed") := by
  induction us with
  | nil => exact fun d0 => ⟨rfl, rfl, rfl⟩
  | cons u us ih =>
    intro d0
    simpa [List.foldl_cons] using ih (dictUpdate d0 u)

/-- C6.  When Tier 1 fails (submission raised or polling yielded no result),
Tier 2 fails (raised or produced no output file), and the Tier-3 placeholder
copy fails, the orchestration — a total function that reports outcomes only
through the record, raising nothing to any caller — leaves the job record
with status `error`, a null `video_url`, and the explanatory message, and a
subsequent download for that job id fails with the not-ready 400. -/
theorem claim_C6 (st : StoreState) (fs : String → Bool) (jid : String)
    (d0 : JobDict) (v : ViduOutcome) (h : HfOutcome) (m : MockOutcome)
    (hv : v = ViduOutcome.submitFail ∨ v = ViduOutcome.pollNoResult)
    (hh : h = HfOutcome.earlyFail ∨ h = HfOutcome.lateFail)
    (hm : m = MockOutcome.fail)
    (hrec : get_job_data st false jid = some d0) :
    ∃ d', get_job_data
          (applyWrites jid (video_generation_process jid v h m) [] st) false
          jid = some d' ∧
      d'.status = some (JVal.s "error") ∧
      d'.video_url = some JVal.null ∧
      d'.message = some (JVal.s "❌ All video generation methods failed") ∧
      download_video
          (applyWrites jid (video_generation_process jid v h m) [] st) false
          fs jid =
        Except.error (HttpError.badRequest "Video not ready for download") := by
  subst hm
  obtain ⟨pre, hpre⟩ := trace_ends_error jid v h hv hh
  have hfin := get_applyWrites_reliable jid
    (video_generation_process jid v h MockOutcome.fail) st d0 hrec
  rw [hpre] at hfin
  obtain ⟨h1, h2, h3⟩ := foldl_last_error pre d0
  rw [hpre]
  exact ⟨_, hfin, h1, h2, h3, download_error_status _ fs jid _ hfin h1⟩

/-- C6 witness: a concrete all-tiers-fail run over the in-process store. -/
theorem claim_C6_witness :
    ∃ d', get_job_data
          (applyWrites "j1"
            (video_generation_process "j1" ViduOutcome.submitFail
              HfOutcome.earlyFail MockOutcome.fail) []
            ⟨false, fun _ => none,
             fun x => if x = "j1" then some (initialJobData "a cat")
               else none⟩) false "j1" = some d' ∧
      d'.status = some (JVal.s "error") ∧
      d'.video_url = some JVal.null ∧
      d'.message = some (JVal.s "❌ All video generation methods failed") ∧
      download_video
          (applyWrites "j1"
            (video_generation_process "j1" ViduOutcome.submitFail
              HfOutcome.earlyFail MockOutcome.fail) []
            ⟨false, fun _ => none,
             fun x => if x = "j1" then some (initialJobData "a cat")
               else none⟩) false (fun _ => true) "j1" =
        Except.error (HttpError.badRequest "Video not ready for download") :=
  claim_C6
    ⟨false, fun _ => none,
     fun x => if x = "j1" then some (initialJobData "a cat") else none⟩
    (fun _ => true) "j1" (initialJobData "a cat") ViduOutcome.submitFail
    HfOutcome.earlyFail MockOutcome.fail (Or.inl rfl) (Or.inl rfl) rfl
    (by simp [get_job_data])

/-! ## Artifact retrieval error taxonomy -/

/-- C7.  For every store state, filesystem and job id, the download endpoint
fails with the job-not-found 404 exactly when no record exists; given a
record, it fails with the not-ready 400 exactly when the record's status is
not `completed`; given a completed record, it fails with the
file-not-found 404 exactly when the stored path is absent/falsy or the file
no longer exists on disk; otherwise it serves the file at the stored path. -/
theorem claim_C7 (st : StoreState) (gF : Bool) (fs : String → Bool)
    (jid : String) :
    (download_video st gF fs jid =
        Except.error (HttpError.notFound "Job ID not found") ↔
      get_job_data st gF jid = none) ∧
    ∀ d, get_job_data st gF jid = some d →
      ((download_video st gF fs jid =
          Except.error (HttpError.badRequest "Video not ready for download") ↔
        d.status ≠ some (JVal.s "completed")) ∧
       (d.status = some (JVal.s "completed") →
         ((download_video st gF fs jid =
             Except.error (HttpError.notFound "Video file not found") ↔
           pathMissing d fs = true) ∧
          (pathMissing d fs = false →
            ∃ p, jGetStr d.video_path = some p ∧
              download_video st gF fs jid = Except.ok p)))) := by
  constructor
  · rcases hg : get_job_data st gF jid with _ | d
    · simp [download_video, hg]
    · simp only [download_video, hg]
      constructor
      · intro hcontra
        by_cases hs : d.status = some (JVal.s "completed")
        · rcases hp : jGetStr d.video_path with _ | p
          · simp [hs, hp] at hcontra
          · by_cases hpe : p = "" <;> cases hf : fs p <;>
              simp [hs, hp, hpe, hf] at hcontra
        · simp [hs] at hcontra
      · intro hcontra
        exact absurd hcontra (by simp)
  · intro d hg
    constructor
    · by_cases hs : d.status = some (JVal.s "completed")
      · rcases hp : jGetStr d.video_path with _ | p
        · simp [download_video, hg, hs, hp]
        · by_cases hpe : p = "" <;> cases hf : fs p <;>
            simp [download_video, hg, hs, hp, hpe, hf]
      · simp [download_video, hg, hs]
    · intro hs
      constructor
      · rcases hp : jGetStr d.video_path with _ | p
        · simp [download_video, hg, hs, hp, pathMissing]
        · by_cases hpe : p = "" <;> cases hf : fs p <;>
            simp [download_video, hg, hs, hp, hpe, hf, pathMissing]
      · intro hmiss
        rcases hp : jGetStr d.video_path with _ | p
        · simp [pathMissing, hp] at hmiss
        · refine ⟨p, rfl, ?_⟩
          have hpe : p ≠ "" := by
            intro hc; simp [pathMissing, hp, hc] at hmiss
          have hf : fs p = true := by
            cases hf : fs p
            · simp [pathMissing, hp, hf, hpe] at hmiss
            · rfl
          simp [download_video, hg, hs, hp, hpe, hf]

/-- C7 witness: a completed record with an existing file is served; the same
store with a different id is a 404. -/
theorem claim_C7_witness :
    download_video
        ⟨false, fun _ => none,
         fun x => if x = "j1" then
           some { status := some (JVal.s "completed")
                  message := some (JVal.s "done")
                  video_path := some (JVal.s "./videos/j1.mp4") }
           else none⟩ false (fun p => p = "./videos/j1.mp4") "j1" =
      Except.ok "./videos/j1.mp4" := by
  obtain ⟨p, hp, hdl⟩ :=
    ((claim_C7
        ⟨false, fun _ => none,
         fun x => if x = "j1" then
           some { status := some (JVal.s "completed")
                  message := some (JVal.s "done")
                  video_path := some (JVal.s "./videos/j1.mp4") }
           else none⟩ false (fun p => p = "./videos/j1.mp4") "j1").2
      { status := some (JVal.s "completed")
        message := some (JVal.s "done")
        video_path := some (JVal.s "./videos/j1.mp4") }
      (by simp [get_job_data])).2 rfl |>.2 (by decide)
  have hpp : p = "./videos/j1.mp4" := by
    simpa [jGetStr] using hp.symm
  rw [hpp] at hdl
  exact hdl

/-! ## Merge frame property and prompt immutability -/

/-- No update dict the orchestration ever passes to `update_job_data`
carries the `prompt` key. -/
theorem trace_prompt_none (jid : String) (v : ViduOutcome) (h : HfOutcome)
    (m : MockOutcome) :
    ∀ u ∈ video_generation_process jid v h m, u.prompt = none := by
  cases v <;> cases h <;> cases m <;>
    (intro u hu
     simp [video_generation_process, hfTrace, mockTrace] at hu
     rcases hu with rfl | rfl | rfl | rfl <;>
       rfl)

/-- Folding merges whose update dicts never carry `prompt` leaves the
record's `prompt` unchanged. -/
theorem foldl_prompt_invariant (us : List JobDict) :
    ∀ d0 : JobDict, (∀ u ∈ us, u.prompt = none) →
      (us.foldl dictUpdate d0).prompt = d0.prompt := by
  induction us with
  | nil => intro d0 _; rfl
  | cons u us ih =>
    intro d0 hall
    have hu : u.prompt = none := hall u (List.mem_cons_self u us)
    have hrest := ih (dictUpdate d0 u) fun x hx =>
      hall x (List.mem_cons_of_mem u hx)
    rw [List.foldl_cons, hrest]
    simp [dictUpdate, hu, optUpd]

/-- C9.  The store's merge applies exactly the fields present in the partial
update and leaves every other field of the existing record unchanged, is a
no-op when no record exists for the id, and — since no orchestration update
dict carries `prompt` — across the whole orchestration run the record's
`prompt` stays what creation set it to. -/
theorem claim_C9 (st : StoreState) (gF pF : Bool) (jid jid2 : String)
    (cur upd d0 : JobDict) (v : ViduOutcome) (h : HfOutcome)
    (m : MockOutcome)
    (hnone : get_job_data st gF jid2 = none)
    (hrec : get_job_data st false jid = some d0) :
    ((upd.status = none → (dictUpdate cur upd).status = cur.status) ∧
     (upd.message = none → (dictUpdate cur upd).message = cur.message) ∧
     (upd.video_url = none →
       (dictUpdate cur upd).video_url = cur.video_url) ∧
     (upd.prompt = none → (dictUpdate cur upd).prompt = cur.prompt) ∧
     (upd.video_path = none →
       (dictUpdate cur upd).video_path = cur.video_path) ∧
     (upd.user_phone = none →
       (dictUpdate cur upd).user_phone = cur.user_phone)) ∧
    update_job_data st gF pF jid2 upd = st ∧
    (∀ u ∈ video_generation_process jid v h m, u.prompt = none) ∧
    ∃ d', get_job_data
          (applyWrites jid (video_generation_process jid v h m) [] st) false
          jid = some d' ∧
      d'.prompt = d0.prompt := by
  refine ⟨⟨?_, ?_, ?_, ?_, ?_, ?_⟩, ?_, trace_prompt_none jid v h m, ?_⟩
  · intro hu; simp [dictUpdate, hu, optUpd]
  · intro hu; simp [dictUpdate, hu, optUpd]
  · intro hu; simp [dictUpdate, hu, optUpd]
  · intro hu; simp [dictUpdate, hu, optUpd]
  · intro hu; simp [dictUpdate, hu, optUpd]
  · intro hu; simp [dictUpdate, hu, optUpd]
  · unfold update_job_data
    rw [hnone]
  · exact ⟨_, get_applyWrites_reliable jid _ st d0 hrec,
      foldl_prompt_invariant _ d0 (trace_prompt_none jid v h m)⟩

/-- C9 witness: a concrete run (Tier 1 fails, Tier 2 succeeds) over the
in-process store keeps the creation prompt in the final record; the same
merge on an unknown id is a no-op. -/
theorem claim_C9_witness :
    ∃ d', get_job_data
          (applyWrites "j1"
            (video_generation_process "j1" ViduOutcome.submitFail
              HfOutcome.ok MockOutcome.ok) []
            ⟨false, fun _ => none,
             fun x => if x = "j1" then some (initialJobData "a cat")
               else none⟩) false "j1" = some d' ∧
      d'.prompt = (initialJobData "a cat").prompt :=
  (claim_C9
    ⟨false, fun _ => none,
     fun x => if x = "j1" then some (initialJobData "a cat") else none⟩
    false false "j1" "j2" (initialJobData "a cat") processingUpdate
    (initialJobData "a cat") ViduOutcome.submitFail HfOutcome.ok
    MockOutcome.ok (by simp [get_job_data]) (by simp [get_job_data])).2.2.2
